import Mathlib

/-!
Verification of the Tana DB query-builder core (`src/lib/db/query.ts`,
`src/lib/db/model.ts`, `src/lib/db/schema.ts`): a shallow embedding of the
schema/column model, the condition expression tree, the four statement
builders, and the ActiveRecord-style model layer, together with proofs of
the testable properties stated in the specification.
-/

namespace Tana

/-- `SQLValue` from `query.ts`: `string | number | boolean | null | Date | bigint`.
Numbers and bigints are modelled as `Int`; `Date` as a tagged payload.
`undef` models the JavaScript `undefined` that arises when a value row is
missing a key looked up by the insert compiler. -/
inductive SQLValue where
  | str (s : String)
  | int (n : Int)
  | bool (b : Bool)
  | null
  | date (ms : Int)
  | undef
deriving Repr, DecidableEq

/-- `ColumnBuilder` from `schema.ts`: the runtime column metadata
(`columnType`, `columnName`, and the three constraint flags). The
`_defaultValue` payload is carried as an optional `SQLValue`. -/
structure ColumnBuilder where
  columnType : String
  columnName : String
  _defaultValue : Option SQLValue := none
  _notNullFlag : Bool := false
  _hasDefaultFlag : Bool := false
  _isPrimaryKeyFlag : Bool := false
deriving Repr, DecidableEq

/-- `ColumnBuilder.notNull()`: returns a new column with the not-null flag set. -/
def ColumnBuilder.notNull (c : ColumnBuilder) : ColumnBuilder :=
  { c with _notNullFlag := true }

/-- `ColumnBuilder.default(value)`: returns a new column with a default value. -/
def ColumnBuilder.default (c : ColumnBuilder) (v : SQLValue) : ColumnBuilder :=
  { c with _defaultValue := some v, _hasDefaultFlag := true }

/-- `ColumnBuilder.primaryKey()`: sets the primary-key flag and (implicitly)
the not-null flag. -/
def ColumnBuilder.primaryKey (c : ColumnBuilder) : ColumnBuilder :=
  { c with _notNullFlag := true, _isPrimaryKeyFlag := true }

/-- Column type constructor `text(name)` from `schema.ts`. -/
def text (name : String) : ColumnBuilder := { columnType := "text", columnName := name }

/-- Column type constructor `uuid(name)` from `schema.ts`. -/
def uuid (name : String) : ColumnBuilder := { columnType := "uuid", columnName := name }

/-- Column type constructor `boolean(name)` from `schema.ts`. -/
def boolean (name : String) : ColumnBuilder := { columnType := "boolean", columnName := name }

/-- Column type constructor `integer(name)` from `schema.ts`. -/
def integer (name : String) : ColumnBuilder := { columnType := "integer", columnName := name }

/-- A table definition from `schema.ts`: a table name plus the ordered
logical-name → column mapping (`Object.entries` order of the `columns`
record literal). -/
structure Table where
  tableName : String
  columns : List (String × ColumnBuilder)
deriving Repr, DecidableEq

/-- The condition expression tree of `query.ts`: one constructor per
`SQLCondition` implementation class (`ComparisonExpr`, `InExpr`,
`NotInExpr`, `IsNullExpr`, `IsNotNullExpr`, `BetweenExpr`, `AndExpr`,
`OrExpr`, `NotExpr`). -/
inductive SQLCondition where
  | comparison (column : ColumnBuilder) (op : String) (value : SQLValue)
  | inExpr (column : ColumnBuilder) (values : List SQLValue)
  | notInExpr (column : ColumnBuilder) (values : List SQLValue)
  | isNullExpr (column : ColumnBuilder)
  | isNotNullExpr (column : ColumnBuilder)
  | betweenExpr (column : ColumnBuilder) (min max : SQLValue)
  | andExpr (conditions : List SQLCondition)
  | orExpr (conditions : List SQLCondition)
  | notExpr (condition : SQLCondition)
deriving Repr

/-- The result record of `SQLCondition.toSQL(paramIndex)`. -/
structure CompileResult where
  sql : String
  params : List SQLValue
  nextIndex : Nat
deriving Repr, DecidableEq

/-- Intermediate result of folding a list of child conditions (the loop
bodies of `AndExpr.toSQL` / `OrExpr.toSQL`). -/
structure ListCompileResult where
  sqls : List String
  params : List SQLValue
  nextIndex : Nat
deriving Repr, DecidableEq

/-- The `$k, $(k+1), …` placeholder list built by `InExpr.toSQL` /
`NotInExpr.toSQL` (`values.map((_, i) => $(paramIndex + i))`). -/
def placeholderList (k n : Nat) : List String :=
  (List.range n).map (fun i => "$" ++ toString (k + i))

mutual

/-- `SQLCondition.toSQL(paramIndex)` from `query.ts`, one match arm per
expression class, translated literally. -/
def condToSQL : SQLCondition → Nat → CompileResult
  | .comparison col op v, k =>
    ⟨"\"" ++ col.columnName ++ "\" " ++ op ++ " $" ++ toString k, [v], k + 1⟩
  | .inExpr col vs, k =>
    ⟨"\"" ++ col.columnName ++ "\" IN (" ++ String.intercalate ", " (placeholderList k vs.length) ++ ")",
     vs, k + vs.length⟩
  | .notInExpr col vs, k =>
    ⟨"\"" ++ col.columnName ++ "\" NOT IN (" ++ String.intercalate ", " (placeholderList k vs.length) ++ ")",
     vs, k + vs.length⟩
  | .isNullExpr col, k =>
    ⟨"\"" ++ col.columnName ++ "\" IS NULL", [], k⟩
  | .isNotNullExpr col, k =>
    ⟨"\"" ++ col.columnName ++ "\" IS NOT NULL", [], k⟩
  | .betweenExpr col lo hi, k =>
    ⟨"\"" ++ col.columnName ++ "\" BETWEEN $" ++ toString k ++ " AND $" ++ toString (k + 1),
     [lo, hi], k + 2⟩
  | .andExpr cs, k =>
    let r := condListToSQL cs k
    ⟨"(" ++ String.intercalate " AND " r.sqls ++ ")", r.params, r.nextIndex⟩
  | .orExpr cs, k =>
    let r := condListToSQL cs k
    ⟨"(" ++ String.intercalate " OR " r.sqls ++ ")", r.params, r.nextIndex⟩
  | .notExpr c, k =>
    let r := condToSQL c k
    ⟨"NOT " ++ r.sql, r.params, r.nextIndex⟩

/-- The child loop of `AndExpr.toSQL` / `OrExpr.toSQL`: fold left-to-right,
collecting fragments and params and threading each child's `nextIndex`
into the next child's start index. -/
def condListToSQL : List SQLCondition → Nat → ListCompileResult
  | [], k => ⟨[], [], k⟩
  | c :: rest, k =>
    let r := condToSQL c k
    let rr := condListToSQL rest r.nextIndex
    ⟨r.sql :: rr.sqls, r.params ++ rr.params, rr.nextIndex⟩

end

mutual

/-- Total number of leaf values in a condition tree: 1 per comparison,
`len(values)` per in / not-in, 0 per null-check, 2 per between. -/
def leafCount : SQLCondition → Nat
  | .comparison .. => 1
  | .inExpr _ vs => vs.length
  | .notInExpr _ vs => vs.length
  | .isNullExpr _ => 0
  | .isNotNullExpr _ => 0
  | .betweenExpr .. => 2
  | .andExpr cs => leafCountList cs
  | .orExpr cs => leafCountList cs
  | .notExpr c => leafCount c

/-- Sum of `leafCount` over a list of children. -/
def leafCountList : List SQLCondition → Nat
  | [] => 0
  | c :: rest => leafCount c + leafCountList rest

end

/-- Operator function `eq` from `query.ts`. -/
def eq (column : ColumnBuilder) (value : SQLValue) : SQLCondition :=
  .comparison column "=" value

/-- Operator function `ne` from `query.ts`. -/
def ne (column : ColumnBuilder) (value : SQLValue) : SQLCondition :=
  .comparison column "<>" value

/-- Operator function `gt` from `query.ts`. -/
def gt (column : ColumnBuilder) (value : SQLValue) : SQLCondition :=
  .comparison column ">" value

/-- Operator function `gte` from `query.ts`. -/
def gte (column : ColumnBuilder) (value : SQLValue) : SQLCondition :=
  .comparison column ">=" value

/-- Operator function `lt` from `query.ts`. -/
def lt (column : ColumnBuilder) (value : SQLValue) : SQLCondition :=
  .comparison column "<" value

/-- Operator function `lte` from `query.ts`. -/
def lte (column : ColumnBuilder) (value : SQLValue) : SQLCondition :=
  .comparison column "<=" value

/-- Operator function `like` from `query.ts`. -/
def like (column : ColumnBuilder) (pattern : String) : SQLCondition :=
  .comparison column "LIKE" (.str pattern)

/-- Operator function `ilike` from `query.ts`. -/
def ilike (column : ColumnBuilder) (pattern : String) : SQLCondition :=
  .comparison column "ILIKE" (.str pattern)

/-- Operator function `inArray` from `query.ts`. -/
def inArray (column : ColumnBuilder) (values : List SQLValue) : SQLCondition :=
  .inExpr column values

/-- Operator function `notInArray` from `query.ts`. -/
def notInArray (column : ColumnBuilder) (values : List SQLValue) : SQLCondition :=
  .notInExpr column values

/-- Operator function `isNull` from `query.ts`. -/
def isNull (column : ColumnBuilder) : SQLCondition := .isNullExpr column

/-- Operator function `isNotNull` from `query.ts`. -/
def isNotNull (column : ColumnBuilder) : SQLCondition := .isNotNullExpr column

/-- Operator function `between` from `query.ts`. -/
def between (column : ColumnBuilder) (lo hi : SQLValue) : SQLCondition :=
  .betweenExpr column lo hi

/-- Variadic operator function `and(...conditions)` from `query.ts`. -/
def andAll (conditions : List SQLCondition) : SQLCondition := .andExpr conditions

/-- Variadic operator function `or(...conditions)` from `query.ts`. -/
def orAll (conditions : List SQLCondition) : SQLCondition := .orExpr conditions

/-- Operator function `not(condition)` from `query.ts`. -/
def notCond (condition : SQLCondition) : SQLCondition := .notExpr condition

/-- `OrderDirection` ('asc' | 'desc') from `query.ts`. -/
inductive OrderDirection where
  | asc
  | desc
deriving Repr, DecidableEq

/-- `direction.toUpperCase()` as used by the ORDER BY renderers. -/
def OrderDirection.upper : OrderDirection → String
  | .asc => "ASC"
  | .desc => "DESC"

/-- `JoinType` ('inner' | 'left' | 'right' | 'full') from `query.ts`. -/
inductive JoinType where
  | inner
  | left
  | right
  | full
deriving Repr, DecidableEq

/-- `join.type.toUpperCase()` as used by `SelectQueryBuilder.toSQL`. -/
def JoinType.upper : JoinType → String
  | .inner => "INNER"
  | .left => "LEFT"
  | .right => "RIGHT"
  | .full => "FULL"

/-- `JoinClause` from `query.ts`. -/
structure JoinClause where
  type : JoinType
  table : Table
  onCond : SQLCondition
deriving Repr

/-- One entry of a non-star `_select` record, as discriminated by
`SelectQueryBuilder.toSQL`: an aggregate descriptor (`_type === 'aggregate'`,
checked first), a plain column (has `columnName`), or anything else
(rendered as the bare alias). -/
inductive SelectEntry where
  | agg (fn : String) (column : Option ColumnBuilder)
  | col (column : ColumnBuilder)
  | raw
deriving Repr

/-- The `_select` field: `'*'` or an aliased entry record
(`Object.entries` order). -/
inductive Selection where
  | star
  | fields (entries : List (String × SelectEntry))
deriving Repr

/-- An argument to `SelectQueryBuilder.orderBy(...orders)`: either an
`{ column, direction }` object (as produced by `asc()` / `desc()`) or a bare
column (normalised to ascending). -/
inductive OrderArg where
  | ordered (column : ColumnBuilder) (direction : OrderDirection)
  | plain (column : ColumnBuilder)
deriving Repr

/-- `asc(column)` ordering helper from `query.ts`. -/
def ascOrder (column : ColumnBuilder) : OrderArg := .ordered column .asc

/-- `desc(column)` ordering helper from `query.ts`. -/
def descOrder (column : ColumnBuilder) : OrderArg := .ordered column .desc

/-- The private state of `SelectQueryBuilder`. -/
structure SelectBuilder where
  _from : Option Table
  _select : Selection
  _where : Option SQLCondition
  _joins : List JoinClause
  _orderBy : List (ColumnBuilder × OrderDirection)
  _groupBy : List ColumnBuilder
  _limit : Option Nat
  _offset : Option Nat
deriving Repr

/-- `new SelectQueryBuilder()`: all fields at their declared initial values
(`_select = '*'`, `_joins = []`, `_orderBy = []`, `_groupBy = []`). -/
def emptySelectBuilder : SelectBuilder :=
  ⟨none, .star, none, [], [], [], none, none⟩

/-- One chain call on a `SelectQueryBuilder`: each constructor corresponds to
one of the derivation methods (`select`, `from`, `where`, `innerJoin`,
`leftJoin`, `rightJoin`, `orderBy`, `groupBy`, `limit`, `offset`). -/
inductive ChainCall where
  | selectC (columns : Option (List (String × SelectEntry)))
  | fromC (table : Table)
  | whereC (condition : SQLCondition)
  | innerJoinC (table : Table) (onCond : SQLCondition)
  | leftJoinC (table : Table) (onCond : SQLCondition)
  | rightJoinC (table : Table) (onCond : SQLCondition)
  | orderByC (orders : List OrderArg)
  | groupByC (columns : List ColumnBuilder)
  | limitC (n : Nat)
  | offsetC (n : Nat)

/-- The body of each `SelectQueryBuilder` chain method: build a fresh builder,
copy every field of the receiver, and apply the method's single change.
Translated arm-by-arm from `query.ts` lines 359–505 (note `select`'s
`columns || '*'` and `orderBy`'s `'direction' in o` normalisation). -/
def deriveBuilder (b : SelectBuilder) : ChainCall → SelectBuilder
  | .selectC cols =>
    { b with _select := match cols with
                        | some entries => .fields entries
                        | none => .star }
  | .fromC t => { b with _from := some t }
  | .whereC c => { b with _where := some c }
  | .innerJoinC t onC => { b with _joins := b._joins ++ [⟨.inner, t, onC⟩] }
  | .leftJoinC t onC => { b with _joins := b._joins ++ [⟨.left, t, onC⟩] }
  | .rightJoinC t onC => { b with _joins := b._joins ++ [⟨.right, t, onC⟩] }
  | .orderByC orders =>
    { b with _orderBy := orders.map fun o =>
        match o with
        | .ordered c d => (c, d)
        | .plain c => (c, .asc) }
  | .groupByC cols => { b with _groupBy := cols }
  | .limitC n => { b with _limit := some n }
  | .offsetC n => { b with _offset := some n }

/-- The SELECT-clause renderer for one aliased entry
(`SelectQueryBuilder.toSQL`, non-star branch). -/
def renderSelectEntry : String × SelectEntry → String
  | (a, .agg fn c?) =>
    match c? with
    | some c => fn ++ "(\"" ++ c.columnName ++ "\") AS \"" ++ a ++ "\""
    | none => fn ++ "(*) AS \"" ++ a ++ "\""
  | (a, .col c) => "\"" ++ c.columnName ++ "\" AS \"" ++ a ++ "\""
  | (a, .raw) => "\"" ++ a ++ "\""

/-- The JOIN loop of `SelectQueryBuilder.toSQL`: renders each join clause with
the running parameter index and threads `nextIndex` onward. -/
def renderJoins : List JoinClause → Nat → List String × List SQLValue × Nat
  | [], k => ([], [], k)
  | j :: rest, k =>
    let r := condToSQL j.onCond k
    let part := j.type.upper ++ " JOIN \"" ++ j.table.tableName ++ "\" ON " ++ r.sql
    let (parts, params, k') := renderJoins rest r.nextIndex
    (part :: parts, r.params ++ params, k')

/-- `SelectQueryBuilder.toSQL()`: fails when no FROM table is bound, then
assembles SELECT, JOINs (threading the parameter index), WHERE, GROUP BY,
ORDER BY, LIMIT, OFFSET, joined by single spaces. -/
def SelectBuilder.toSQL (b : SelectBuilder) : Except String (String × List SQLValue) :=
  match b._from with
  | none => .error "FROM clause is required"
  | some t =>
    let selectPart :=
      match b._select with
      | .star => "SELECT * FROM \"" ++ t.tableName ++ "\""
      | .fields entries =>
        "SELECT " ++ String.intercalate ", " (entries.map renderSelectEntry) ++
          " FROM \"" ++ t.tableName ++ "\""
    let (joinParts, joinParams, k1) := renderJoins b._joins 1
    let (whereParts, whereParams) :=
      match b._where with
      | none => ([], [])
      | some c =>
        let r := condToSQL c k1
        (["WHERE " ++ r.sql], r.params)
    let groupParts :=
      if b._groupBy.isEmpty then []
      else ["GROUP BY " ++
        String.intercalate ", " (b._groupBy.map fun c => "\"" ++ c.columnName ++ "\"")]
    let orderParts :=
      if b._orderBy.isEmpty then []
      else ["ORDER BY " ++
        String.intercalate ", " (b._orderBy.map fun o => "\"" ++ o.1.columnName ++ "\" " ++ o.2.upper)]
    let limitParts := match b._limit with | none => [] | some n => ["LIMIT " ++ toString n]
    let offsetParts := match b._offset with | none => [] | some n => ["OFFSET " ++ toString n]
    .ok (String.intercalate " "
          ([selectPart] ++ joinParts ++ whereParts ++ groupParts ++ orderParts ++
            limitParts ++ offsetParts),
         joinParams ++ whereParams)

/-- `db.select(columns?)`: `new SelectQueryBuilder().select(columns)`. -/
def dbSelect (columns : Option (List (String × SelectEntry))) : SelectBuilder :=
  deriveBuilder emptySelectBuilder (.selectC columns)

/-- An attribute row: an ordered key → value mapping (`Object.entries` /
`Object.keys` order of a JavaScript object literal). -/
abbrev Row : Type := List (String × SQLValue)

/-- The logical-name → physical-name resolution used by the insert, update
and model-layer compilers: `tableColumns[prop]?.columnName || prop` — use the
schema's column name when the property is declared and its name is truthy
(non-empty), otherwise fall back to the property name verbatim. -/
def resolveColumnName (t : Table) (prop : String) : String :=
  match t.columns.lookup prop with
  | some c => if c.columnName = "" then prop else c.columnName
  | none => prop

/-- The state of an `InsertQueryBuilder`. -/
structure InsertBuilder where
  _table : Table
  _values : List Row
  _returning : Bool

/-- `db.insert(table)`: `new InsertQueryBuilder(table)` (`_values = []`,
`_returning = false`). -/
def dbInsert (t : Table) : InsertBuilder := ⟨t, [], false⟩

/-- `InsertQueryBuilder.values(data)`: new builder with `_values` replaced.
The single-object call form wraps its argument into a one-element list
(`Array.isArray(data) ? data : [data]`); the argument here is that
normalised list. -/
def InsertBuilder.values (b : InsertBuilder) (data : List Row) : InsertBuilder :=
  ⟨b._table, data, b._returning⟩

/-- `InsertQueryBuilder.returning()`: new builder with `_returning = true`. -/
def InsertBuilder.returning (b : InsertBuilder) : InsertBuilder :=
  ⟨b._table, b._values, true⟩

/-- The per-row loop of `InsertQueryBuilder.toSQL`: for each row, one
placeholder per property of the *first* row's key list, pushing
`row[prop]` (JavaScript `undefined` when missing) and threading the
parameter counter across rows. Returns the parenthesised groups, the
params, and the next free index. -/
def insertRowGroups (propNames : List String) : List Row → Nat → List String × List SQLValue × Nat
  | [], k => ([], [], k)
  | row :: rest, k =>
    let cells := propNames.map fun p => ((row.lookup p).getD .undef)
    let group := "(" ++ String.intercalate ", " (placeholderList k propNames.length) ++ ")"
    let (groups, params, k') := insertRowGroups propNames rest (k + propNames.length)
    (group :: groups, cells ++ params, k')

/-- `InsertQueryBuilder.toSQL()`: fails on an empty values list; derives the
column list from the keys of the first row mapped through the table schema;
builds one placeholder group per row; appends `RETURNING *` iff
`returning()` was called. -/
def InsertBuilder.toSQL (b : InsertBuilder) : Except String (String × List SQLValue) :=
  match b._values with
  | [] => .error "No values to insert"
  | first :: rest =>
    let propNames := first.map (·.1)
    let dbColumnNames := propNames.map (resolveColumnName b._table)
    let columnList := String.intercalate ", " (dbColumnNames.map fun c => "\"" ++ c ++ "\"")
    let (groups, params, _) := insertRowGroups propNames (first :: rest) 1
    let sql := "INSERT INTO \"" ++ b._table.tableName ++ "\" (" ++ columnList ++ ") VALUES " ++
      String.intercalate ", " groups ++
      (if b._returning then " RETURNING *" else "")
    .ok (sql, params)

/-- The state of an `UpdateQueryBuilder`. -/
structure UpdateBuilder where
  _table : Table
  _set : Row
  _where : Option SQLCondition
  _returning : Bool

/-- `db.update(table)`: `new UpdateQueryBuilder(table)` (`_set = {}`). -/
def dbUpdate (t : Table) : UpdateBuilder := ⟨t, [], none, false⟩

/-- `UpdateQueryBuilder.set(data)`: new builder with `_set` replaced. -/
def UpdateBuilder.set (b : UpdateBuilder) (data : Row) : UpdateBuilder :=
  ⟨b._table, data, b._where, b._returning⟩

/-- `UpdateQueryBuilder.where(condition)`: new builder with `_where` replaced. -/
def UpdateBuilder.whereCond (b : UpdateBuilder) (c : SQLCondition) : UpdateBuilder :=
  ⟨b._table, b._set, some c, b._returning⟩

/-- `UpdateQueryBuilder.returning()`: new builder with `_returning = true`. -/
def UpdateBuilder.returning (b : UpdateBuilder) : UpdateBuilder :=
  ⟨b._table, b._set, b._where, true⟩

/-- The SET-clause loop of `UpdateQueryBuilder.toSQL`: one
`"column" = $i` assignment and one pushed parameter per assigned property,
in insertion order. -/
def renderSetClause (t : Table) : Row → Nat → List String × List SQLValue
  | [], _ => ([], [])
  | (p, v) :: rest, k =>
    let frag := "\"" ++ resolveColumnName t p ++ "\" = $" ++ toString k
    let (frags, params) := renderSetClause t rest (k + 1)
    (frag :: frags, v :: params)

/-- `UpdateQueryBuilder.toSQL()`: fails when the assigned mapping is empty;
renders the SET clause, then the optional WHERE clause continuing the
parameter index, then `RETURNING *` iff requested. -/
def UpdateBuilder.toSQL (b : UpdateBuilder) : Except String (String × List SQLValue) :=
  match b._set with
  | [] => .error "No columns to update"
  | props =>
    let (frags, setParams) := renderSetClause b._table props 1
    let base := "UPDATE \"" ++ b._table.tableName ++ "\" SET " ++ String.intercalate ", " frags
    let (whereSql, whereParams) :=
      match b._where with
      | none => ("", [])
      | some c =>
        let r := condToSQL c (props.length + 1)
        (" WHERE " ++ r.sql, r.params)
    let sql := base ++ whereSql ++ (if b._returning then " RETURNING *" else "")
    .ok (sql, setParams ++ whereParams)

/-- The state of a `DeleteQueryBuilder`. -/
structure DeleteBuilder where
  _table : Table
  _where : Option SQLCondition
  _returning : Bool

/-- `db.delete(table)`: `new DeleteQueryBuilder(table)`. -/
def dbDelete (t : Table) : DeleteBuilder := ⟨t, none, false⟩

/-- `DeleteQueryBuilder.where(condition)`: new builder with `_where` replaced. -/
def DeleteBuilder.whereCond (b : DeleteBuilder) (c : SQLCondition) : DeleteBuilder :=
  ⟨b._table, some c, b._returning⟩

/-- `DeleteQueryBuilder.returning()`: new builder with `_returning = true`. -/
def DeleteBuilder.returning (b : DeleteBuilder) : DeleteBuilder :=
  ⟨b._table, b._where, true⟩

/-- `DeleteQueryBuilder.toSQL()`: `DELETE FROM` plus optional WHERE (starting
at parameter index 1) and optional `RETURNING *`; never fails. -/
def DeleteBuilder.toSQL (b : DeleteBuilder) : String × List SQLValue :=
  let base := "DELETE FROM \"" ++ b._table.tableName ++ "\""
  let (whereSql, whereParams) :=
    match b._where with
    | none => ("", [])
    | some c =>
      let r := condToSQL c 1
      (" WHERE " ++ r.sql, r.params)
  (base ++ whereSql ++ (if b._returning then " RETURNING *" else ""), whereParams)

/-- The Runtime Gateway contract (`query`, `execute`, `executeReturning`),
modelled as pure functions from statement text and parameters to the
resolved results (`execute` resolves to a rows-affected count). -/
structure Gateway where
  query : String → List SQLValue → List Row
  execute : String → List SQLValue → Nat
  executeReturning : String → List SQLValue → List Row

/-- A recorded invocation of one of the three gateway entry points. -/
inductive GatewayCall where
  | query (sql : String) (params : List SQLValue)
  | execute (sql : String) (params : List SQLValue)
  | executeReturning (sql : String) (params : List SQLValue)
deriving Repr, DecidableEq

/-- `SelectQueryBuilder.execute()` with an explicit gateway and call trace:
`toSQL()` runs first (its failure propagates with no gateway interaction),
then exactly one `query` call is issued. -/
def SelectBuilder.executeTrace (b : SelectBuilder) (gw : Gateway) :
    Except String (List Row) × List GatewayCall :=
  match b.toSQL with
  | .error e => (.error e, [])
  | .ok (sql, params) => (.ok (gw.query sql params), [.query sql params])

/-- `InsertQueryBuilder.execute()` with an explicit gateway and call trace:
`toSQL()` runs first; then `executeReturning` when `returning()` was
requested, otherwise `execute` with an empty result list. -/
def InsertBuilder.executeTrace (b : InsertBuilder) (gw : Gateway) :
    Except String (List Row) × List GatewayCall :=
  match b.toSQL with
  | .error e => (.error e, [])
  | .ok (sql, params) =>
    if b._returning then
      (.ok (gw.executeReturning sql params), [.executeReturning sql params])
    else
      (.ok [], [.execute sql params])

/-- `UpdateQueryBuilder.execute()` with an explicit gateway and call trace. -/
def UpdateBuilder.executeTrace (b : UpdateBuilder) (gw : Gateway) :
    Except String (List Row) × List GatewayCall :=
  match b.toSQL with
  | .error e => (.error e, [])
  | .ok (sql, params) =>
    if b._returning then
      (.ok (gw.executeReturning sql params), [.executeReturning sql params])
    else
      (.ok [], [.execute sql params])

/-- `DeleteQueryBuilder.execute()` with an explicit gateway and call trace
(`toSQL` never fails for delete). -/
def DeleteBuilder.executeTrace (b : DeleteBuilder) (gw : Gateway) :
    List Row × List GatewayCall :=
  let (sql, params) := b.toSQL
  if b._returning then
    (gw.executeReturning sql params, [.executeReturning sql params])
  else
    ([], [.execute sql params])

/-- The state of a `QueryChain` (`model.ts`). -/
structure QueryChain where
  _table : Table
  _conditions : List SQLCondition
  _orderByList : List (String × OrderDirection)
  _limitValue : Option Nat
  _offsetValue : Option Nat

/-- `new QueryChain(table)`. -/
def QueryChain.new (t : Table) : QueryChain := ⟨t, [], [], none, none⟩

/-- `QueryChain.where(conditions)` (object form): copy the chain, then for
each supplied key push one `eq(column, value)` condition — skipping keys with
no declared column. -/
def QueryChain.whereAttrs (qc : QueryChain) (attrs : Row) : QueryChain :=
  { qc with
    _conditions := qc._conditions ++
      attrs.filterMap fun kv => (qc._table.columns.lookup kv.1).map fun c => eq c kv.2 }

/-- `QueryChain.orderBy(column, direction)`: copy and append one ordering
entry (logical column name). -/
def QueryChain.orderBy (qc : QueryChain) (column : String) (direction : OrderDirection) :
    QueryChain :=
  { qc with _orderByList := qc._orderByList ++ [(column, direction)] }

/-- `QueryChain.limit(n)`. -/
def QueryChain.limit (qc : QueryChain) (n : Nat) : QueryChain :=
  { qc with _limitValue := some n }

/-- `QueryChain.offset(n)`. -/
def QueryChain.offset (qc : QueryChain) (n : Nat) : QueryChain :=
  { qc with _offsetValue := some n }

/-- `QueryChain.toSQL()`: `SELECT * FROM`, then the combined WHERE (single
condition used directly, otherwise wrapped in `and(...)`), then ORDER BY
(resolving logical names through the schema), LIMIT, OFFSET. -/
def QueryChain.toSQL (qc : QueryChain) : String × List SQLValue :=
  let base := "SELECT * FROM \"" ++ qc._table.tableName ++ "\""
  let (whereParts, params) :=
    match qc._conditions with
    | [] => ([], [])
    | [c] =>
      let r := condToSQL c 1
      (["WHERE " ++ r.sql], r.params)
    | c1 :: c2 :: rest =>
      let r := condToSQL (.andExpr (c1 :: c2 :: rest)) 1
      (["WHERE " ++ r.sql], r.params)
  let orderParts :=
    if qc._orderByList.isEmpty then []
    else ["ORDER BY " ++ String.intercalate ", "
      (qc._orderByList.map fun o => "\"" ++ resolveColumnName qc._table o.1 ++ "\" " ++ o.2.upper)]
  let limitParts := match qc._limitValue with | none => [] | some n => ["LIMIT " ++ toString n]
  let offsetParts := match qc._offsetValue with | none => [] | some n => ["OFFSET " ++ toString n]
  (String.intercalate " " ([base] ++ whereParts ++ orderParts ++ limitParts ++ offsetParts), params)

/-- `QueryChain.all()`: compile and issue one gateway `query`. -/
def QueryChain.all (qc : QueryChain) (gw : Gateway) : List Row :=
  let (sql, params) := qc.toSQL
  gw.query sql params

/-- `QueryChain.first()`: `limit(1).all()` and then `results[0] ?? null`. -/
def QueryChain.first (qc : QueryChain) (gw : Gateway) : Option Row :=
  ((qc.limit 1).all gw).head?

/-- A model instance (`createInstance`): the attribute mapping and the
persisted flag. -/
structure Instance where
  _attributes : Row
  _persisted : Bool
deriving Repr, DecidableEq

/-- `createInstance(table, attributes, persisted)`. -/
def createInstance (attributes : Row) (persisted : Bool) : Instance :=
  ⟨attributes, persisted⟩

/-- `model(table).findBy(attrs)`: build a fresh chain, add one equality
condition per supplied key, take the first row, and hydrate it — `null`
(here `none`) when no row matches. -/
def findBy (gw : Gateway) (t : Table) (attrs : Row) : Option Instance :=
  match ((QueryChain.new t).whereAttrs attrs).first gw with
  | none => none
  | some row => some (createInstance row true)

/-- The primary-key discovery scan shared by the instance operations: the
first `Object.entries` pair whose column metadata has `isPrimaryKey`. -/
def findPk (t : Table) : Option (String × ColumnBuilder) :=
  t.columns.find? fun kc => kc.2._isPrimaryKeyFlag

/-- Instance `update(attrs)` with an explicit gateway and call trace: scan
for the primary key (failing before any gateway interaction when none
exists), issue `UPDATE … WHERE pk = $n RETURNING *`, and replace the local
attributes with the returned row when one comes back. Returns the
operation outcome, the post-state of the instance, and the gateway trace. -/
def instanceUpdate (gw : Gateway) (t : Table) (inst : Instance) (attrs : Row) :
    Except String Unit × Instance × List GatewayCall :=
  match findPk t with
  | none => (.error "Cannot update: no primary key defined", inst, [])
  | some (k, col) =>
    let pkValue := (inst._attributes.lookup k).getD .undef
    let q := (((dbUpdate t).set attrs).whereCond (eq col pkValue)).returning
    match q.executeTrace gw with
    | (.error e, calls) => (.error e, inst, calls)
    | (.ok [], calls) => (.ok (), inst, calls)
    | (.ok (r :: _), calls) => (.ok (), { inst with _attributes := r }, calls)

/-- Instance `destroy()` with an explicit gateway and call trace: scan for
the primary key (failing before any gateway interaction when none exists),
issue the DELETE, and flip `_persisted` to `false`. -/
def instanceDestroy (gw : Gateway) (t : Table) (inst : Instance) :
    Except String Unit × Instance × List GatewayCall :=
  match findPk t with
  | none => (.error "Cannot delete: no primary key defined", inst, [])
  | some (k, col) =>
    let pkValue := (inst._attributes.lookup k).getD .undef
    let q := (dbDelete t).whereCond (eq col pkValue)
    let (_, calls) := q.executeTrace gw
    (.ok (), { inst with _persisted := false }, calls)

/-- Instance `reload()` with an explicit gateway and call trace: scan for
the primary key (failing before any gateway interaction when none exists),
issue `SELECT * FROM t WHERE pk = $1`, fail with `Record not found` on zero
rows (leaving the attributes and persisted flag untouched), and otherwise
replace the local attributes with the first returned row. -/
def instanceReload (gw : Gateway) (t : Table) (inst : Instance) :
    Except String Unit × Instance × List GatewayCall :=
  match findPk t with
  | none => (.error "Cannot reload: no primary key defined", inst, [])
  | some (k, col) =>
    let pkValue := (inst._attributes.lookup k).getD .undef
    let b := deriveBuilder (deriveBuilder (dbSelect none) (.fromC t)) (.whereC (eq col pkValue))
    match b.executeTrace gw with
    | (.error e, calls) => (.error e, inst, calls)
    | (.ok [], calls) => (.error "Record not found", inst, calls)
    | (.ok (r :: _), calls) => (.ok (), { inst with _attributes := r }, calls)

/-- The builder heap: models JavaScript object identity for
`SelectQueryBuilder` values, so that mutation of a receiver would be
observable. A builder reference is an index into the store. -/
structure Store where
  builders : List SelectBuilder

/-- `new SelectQueryBuilder(...)` at the heap level: the fresh object is
appended; existing slots are untouched. -/
def Store.alloc (s : Store) (b : SelectBuilder) : Store × Nat :=
  (⟨s.builders ++ [b]⟩, s.builders.length)

/-- One chain call at the heap level: read the receiver, build the derived
builder (`deriveBuilder`, which only assigns fields of the fresh object),
and allocate it. Invalid references are left unchanged. -/
def applyChain (s : Store) (r : Nat) (cc : ChainCall) : Store × Nat :=
  match s.builders[r]? with
  | none => (s, r)
  | some b => s.alloc (deriveBuilder b cc)

/-! ### Shared fixtures for concrete scenarios -/

/-- The `id` column of the `posts` scenario table: `uuid('id').primaryKey()`. -/
def postsIdCol : ColumnBuilder := (uuid "id").primaryKey

/-- The `title` column of the `posts` scenario table: `text('title').notNull()`. -/
def postsTitleCol : ColumnBuilder := (text "title").notNull

/-- The `published` column of the `posts` scenario table:
`boolean('published').default(false)`. -/
def postsPublishedCol : ColumnBuilder := (boolean "published").default (.bool false)

/-- The `posts` scenario table from the specification. -/
def posts : Table :=
  ⟨"posts", [("id", postsIdCol), ("title", postsTitleCol), ("published", postsPublishedCol)]⟩

/-- A gateway whose queries all come back empty. -/
def emptyGateway : Gateway :=
  ⟨fun _ _ => [], fun _ _ => 0, fun _ _ => []⟩

/-- Expected rendering of the equality predicates built from an attrs
object: one `"column" = $n` fragment per supplied key, numbered
consecutively from `k` (the column resolved through the table schema). -/
def eqFragments (t : Table) : Row → Nat → List String
  | [], _ => []
  | (p, _) :: rest, k =>
    ("\"" ++ ((t.columns.lookup p).getD (text "")).columnName ++ "\" = $" ++ toString k)
      :: eqFragments t rest (k + 1)

/-! ### Helper lemmas -/

mutual

/-- Index-threading invariant of `SQLCondition.toSQL`: the next free index
advances by exactly the tree's leaf-value count, and the params list has
exactly that length. -/
theorem condToSQL_spec (c : SQLCondition) (k : Nat) :
    (condToSQL c k).nextIndex = k + leafCount c ∧
      (condToSQL c k).params.length = leafCount c := by
  cases c with
  | comparison col op v => simp [condToSQL, leafCount]
  | inExpr col vs => simp [condToSQL, leafCount]
  | notInExpr col vs => simp [condToSQL, leafCount]
  | isNullExpr col => simp [condToSQL, leafCount]
  | isNotNullExpr col => simp [condToSQL, leafCount]
  | betweenExpr col lo hi => simp [condToSQL, leafCount]
  | andExpr cs =>
    have h := condListToSQL_spec cs k
    simpa [condToSQL, leafCount] using h
  | orExpr cs =>
    have h := condListToSQL_spec cs k
    simpa [condToSQL, leafCount] using h
  | notExpr c =>
    have h := condToSQL_spec c k
    simpa [condToSQL, leafCount] using h

/-- Index-threading invariant for the `And`/`Or` child fold. -/
theorem condListToSQL_spec (cs : List SQLCondition) (k : Nat) :
    (condListToSQL cs k).nextIndex = k + leafCountList cs ∧
      (condListToSQL cs k).params.length = leafCountList cs := by
  cases cs with
  | nil => simp [condListToSQL, leafCountList]
  | cons c rest =>
    have h1 := condToSQL_spec c k
    have h2 := condListToSQL_spec rest (condToSQL c k).nextIndex
    simp only [condListToSQL, leafCountList, List.length_append]
    omega

end

/-! ### Claim theorems -/

/-- C1: for every condition tree built from the exported operator functions
and every starting index `k ≥ 1`, `toSQL(k)` returns `nextIndex - k` equal
to the total number of leaf values in the tree (1 per comparison, 2 per
between, `len(values)` per in/not-in, 0 per null-check), and the returned
params list has exactly that length. -/
theorem claim_C1 (c : SQLCondition) (k : Nat) (_hk : 1 ≤ k) :
    (condToSQL c k).nextIndex - k = leafCount c ∧
      (condToSQL c k).params.length = leafCount c := by
  have h := condToSQL_spec c k
  exact ⟨by omega, h.2⟩

/-- Witness for C1 at a concrete tree (an `and` of a comparison, a
two-element `inArray`, a `between` and a null-check) and start index 3. -/
theorem claim_C1_witness :
    1 ≤ 3 ∧
      ((condToSQL (andAll [eq postsTitleCol (.str "A"),
          inArray postsIdCol [.str "x", .str "y"],
          between postsPublishedCol (.bool false) (.bool true),
          isNull postsTitleCol]) 3).nextIndex - 3 =
        leafCount (andAll [eq postsTitleCol (.str "A"),
          inArray postsIdCol [.str "x", .str "y"],
          between postsPublishedCol (.bool false) (.bool true),
          isNull postsTitleCol]) ∧
       (condToSQL (andAll [eq postsTitleCol (.str "A"),
          inArray postsIdCol [.str "x", .str "y"],
          between postsPublishedCol (.bool false) (.bool true),
          isNull postsTitleCol]) 3).params.length =
        leafCount (andAll [eq postsTitleCol (.str "A"),
          inArray postsIdCol [.str "x", .str "y"],
          between postsPublishedCol (.bool false) (.bool true),
          isNull postsTitleCol])) :=
  ⟨by decide,
   claim_C1 (andAll [eq postsTitleCol (.str "A"),
      inArray postsIdCol [.str "x", .str "y"],
      between postsPublishedCol (.bool false) (.bool true),
      isNull postsTitleCol]) 3 (by decide)⟩

/-- C2: the chained call `db.select().from(posts).where(eq(posts.published,
true))` followed by ordering on `title` descending, `limit(10)` and
`toSQL()` returns the SQL text
`SELECT * FROM "posts" WHERE "published" = $1 ORDER BY "title" DESC LIMIT 10`
with params `[true]`. -/
theorem claim_C2 :
    (deriveBuilder (deriveBuilder (deriveBuilder (deriveBuilder
        (dbSelect none) (.fromC posts))
        (.whereC (eq postsPublishedCol (.bool true))))
        (.orderByC [descOrder postsTitleCol]))
        (.limitC 10)).toSQL =
      .ok ("SELECT * FROM \"posts\" WHERE \"published\" = $1 ORDER BY \"title\" DESC LIMIT 10",
           [.bool true]) := by
  rfl

/-- C7: `And` composition is associative with respect to the rendered
parameter list: compiling `and(a, b, c)` at any start index `k` yields the
same params, in the same order, and the same `nextIndex` as compiling
`and(and(a, b), c)` at `k`. -/
theorem claim_C7 (a b c : SQLCondition) (k : Nat) :
    (condToSQL (andAll [a, b, c]) k).params =
        (condToSQL (andAll [andAll [a, b], c]) k).params ∧
      (condToSQL (andAll [a, b, c]) k).nextIndex =
        (condToSQL (andAll [andAll [a, b], c]) k).nextIndex := by
  simp [andAll, condToSQL, condListToSQL, List.append_assoc]

/-- C10: for every column and every start index `k`, `inArray(column, [])`
compiles without error to the SQL fragment `"name" IN ()` (an empty
placeholder group), an empty params list, and `nextIndex = k`. -/
theorem claim_C10 (col : ColumnBuilder) (k : Nat) :
    condToSQL (inArray col []) k =
      ⟨"\"" ++ col.columnName ++ "\" IN ()", [], k⟩ := by
  simp only [inArray, condToSQL, placeholderList, List.length_nil, List.range_zero,
    List.map_nil, Nat.add_zero, CompileResult.mk.injEq, and_true, true_and]
  rw [show ", ".intercalate ([] : List String) = "" from rfl, String.append_empty,
    String.append_assoc, String.append_assoc]
  rfl

/-- The params pushed by the insert row loop: for each row, one value per
property of the first row's key list, concatenated across rows. -/
theorem insertRowGroups_params (props : List String) (rows : List Row) (k : Nat) :
    (insertRowGroups props rows k).2.1 =
      (rows.map fun row => props.map fun p => ((row.lookup p).getD .undef)).flatten := by
  induction rows generalizing k with
  | nil => simp [insertRowGroups]
  | cons r rest ih => simp [insertRowGroups, ih]

/-- C4: `db.insert(posts).values({title: 'Hello'}).returning().toSQL()`
returns `INSERT INTO "posts" ("title") VALUES ($1) RETURNING *` with params
`['Hello']`; the column list is derived from the keys of the first values
row mapped through the table schema to physical column names (shown by the
`readTime` → `read_time` instance); `RETURNING *` is appended iff
`returning()` was called; and the params are the rows' values for the first
row's keys, threaded across rows. -/
theorem claim_C4 (t : Table) (first : Row) (rest : List Row) (ret : Bool) :
    (((dbInsert posts).values [[("title", .str "Hello")]]).returning).toSQL =
        .ok ("INSERT INTO \"posts\" (\"title\") VALUES ($1) RETURNING *", [.str "Hello"]) ∧
      ((dbInsert ⟨"articles", [("readTime", text "read_time")]⟩).values
          [[("readTime", .int 5)]]).toSQL =
        .ok ("INSERT INTO \"articles\" (\"read_time\") VALUES ($1)", [.int 5]) ∧
      (InsertBuilder.mk t (first :: rest) true).toSQL =
        ((InsertBuilder.mk t (first :: rest) false).toSQL).map
          (fun p => (p.1 ++ " RETURNING *", p.2)) ∧
      ((InsertBuilder.mk t (first :: rest) ret).toSQL).map Prod.snd =
        .ok ((first :: rest).map
          (fun row => (first.map (·.1)).map fun p => ((row.lookup p).getD .undef))).flatten := by
  refine ⟨rfl, rfl, ?_, ?_⟩
  · simp [InsertBuilder.toSQL, Except.map, String.append_empty]
  · simp [InsertBuilder.toSQL, Except.map, insertRowGroups_params]

/-- C3: deriving a new builder from a select builder `B` (with a bound
from-table) through any chain call never alters `B`'s observable compile
output: at the heap level, the receiver's slot still holds the same builder
afterwards, so compiling it yields the same SQL string and params list as
before the call. -/
theorem claim_C3 (s : Store) (r : Nat) (b : SelectBuilder) (cc : ChainCall)
    (hb : s.builders[r]? = some b) (_hfrom : b._from.isSome = true) :
    (applyChain s r cc).1.builders[r]? = some b ∧
      ((applyChain s r cc).1.builders[r]?).map SelectBuilder.toSQL = some b.toSQL := by
  have hr : r < s.builders.length := (List.getElem?_eq_some.mp hb).1
  have hkeep : (applyChain s r cc).1.builders[r]? = some b := by
    simp only [applyChain, hb, Store.alloc]
    rw [List.getElem?_append_left hr]
    exact hb
  exact ⟨hkeep, by rw [hkeep]; rfl⟩

/-- Witness for C3: a one-slot store holding a builder bound to `posts`;
after deriving via `where`, the original slot compiles unchanged. -/
theorem claim_C3_witness :
    (applyChain ⟨[deriveBuilder (dbSelect none) (.fromC posts)]⟩ 0
        (.whereC (eq postsPublishedCol (.bool true)))).1.builders[0]? =
      some (deriveBuilder (dbSelect none) (.fromC posts)) ∧
    ((applyChain ⟨[deriveBuilder (dbSelect none) (.fromC posts)]⟩ 0
        (.whereC (eq postsPublishedCol (.bool true)))).1.builders[0]?).map
        SelectBuilder.toSQL =
      some (deriveBuilder (dbSelect none) (.fromC posts)).toSQL :=
  claim_C3 ⟨[deriveBuilder (dbSelect none) (.fromC posts)]⟩ 0
    (deriveBuilder (dbSelect none) (.fromC posts))
    (.whereC (eq postsPublishedCol (.bool true))) rfl rfl

/-- C5: compile-time structural errors are raised by `toSQL()` itself and
propagate through `execute()` before any gateway interaction: a select
builder with no bound from-table, an insert builder with an empty values
list, and an update builder with an empty set mapping each fail at
`toSQL()`, and their execution traces contain no gateway call. -/
theorem claim_C5 (sel : Selection) (w : Option SQLCondition) (joins : List JoinClause)
    (ob : List (ColumnBuilder × OrderDirection)) (gb : List ColumnBuilder)
    (lim off : Option Nat) (t t' : Table) (iret : Bool) (uw : Option SQLCondition)
    (uret : Bool) (gw : Gateway) :
    (SelectBuilder.mk none sel w joins ob gb lim off).toSQL =
        .error "FROM clause is required" ∧
      ((SelectBuilder.mk none sel w joins ob gb lim off).executeTrace gw).1 =
        .error "FROM clause is required" ∧
      ((SelectBuilder.mk none sel w joins ob gb lim off).executeTrace gw).2 = [] ∧
      (InsertBuilder.mk t [] iret).toSQL = .error "No values to insert" ∧
      ((InsertBuilder.mk t [] iret).executeTrace gw).1 = .error "No values to insert" ∧
      ((InsertBuilder.mk t [] iret).executeTrace gw).2 = [] ∧
      (UpdateBuilder.mk t' [] uw uret).toSQL = .error "No columns to update" ∧
      ((UpdateBuilder.mk t' [] uw uret).executeTrace gw).1 =
        .error "No columns to update" ∧
      ((UpdateBuilder.mk t' [] uw uret).executeTrace gw).2 = [] :=
  ⟨rfl, rfl, rfl, rfl, rfl, rfl, rfl, rfl, rfl⟩

/-- C8: calling `update()`, `destroy()` or `reload()` on an instance whose
table has no primary-key column fails with the no-primary-key error, makes
no gateway call, and leaves the instance's attributes and persisted flag
unchanged. -/
theorem claim_C8 (gw : Gateway) (t : Table) (inst : Instance) (attrs : Row)
    (hpk : findPk t = none) :
    instanceUpdate gw t inst attrs =
        (.error "Cannot update: no primary key defined", inst, []) ∧
      instanceDestroy gw t inst =
        (.error "Cannot delete: no primary key defined", inst, []) ∧
      instanceReload gw t inst =
        (.error "Cannot reload: no primary key defined", inst, []) := by
  refine ⟨?_, ?_, ?_⟩ <;>
    simp [instanceUpdate, instanceDestroy, instanceReload, hpk]

/-- Witness for C8: a table whose only column has no primary-key flag. -/
theorem claim_C8_witness :
    instanceUpdate emptyGateway ⟨"plain", [("title", text "title")]⟩
        ⟨[("title", .str "x")], true⟩ [("title", .str "y")] =
        (.error "Cannot update: no primary key defined", ⟨[("title", .str "x")], true⟩, []) ∧
      instanceDestroy emptyGateway ⟨"plain", [("title", text "title")]⟩
        ⟨[("title", .str "x")], true⟩ =
        (.error "Cannot delete: no primary key defined", ⟨[("title", .str "x")], true⟩, []) ∧
      instanceReload emptyGateway ⟨"plain", [("title", text "title")]⟩
        ⟨[("title", .str "x")], true⟩ =
        (.error "Cannot reload: no primary key defined", ⟨[("title", .str "x")], true⟩, []) :=
  claim_C8 emptyGateway ⟨"plain", [("title", text "title")]⟩
    ⟨[("title", .str "x")], true⟩ [("title", .str "y")] rfl

/-- C9: when `reload()` finds a primary key, issues its select, and the
gateway returns zero rows, the operation fails with the record-not-found
error and the instance's attribute mapping and persisted flag are exactly
what they were before the call; the trace shows the single `query` call. -/
theorem claim_C9 (gw : Gateway) (t : Table) (inst : Instance)
    (k : String) (col : ColumnBuilder) (sql : String) (params : List SQLValue)
    (hpk : findPk t = some (k, col))
    (hsql : (deriveBuilder (deriveBuilder (dbSelect none) (.fromC t))
        (.whereC (eq col ((inst._attributes.lookup k).getD .undef)))).toSQL =
      .ok (sql, params))
    (hempty : gw.query sql params = []) :
    instanceReload gw t inst = (.error "Record not found", inst, [.query sql params]) := by
  simp only [instanceReload, hpk, SelectBuilder.executeTrace, hsql, hempty]

/-- Rendering of one `eq` condition: `"column" = $k`, one parameter, next
index `k + 1`. -/
theorem condToSQL_eq_sql (col : ColumnBuilder) (v : SQLValue) (k : Nat) :
    condToSQL (eq col v) k =
      ⟨"\"" ++ col.columnName ++ "\" = $" ++ toString k, [v], k + 1⟩ := by
  simp only [eq, condToSQL, CompileResult.mk.injEq, and_true, true_and]
  simp only [String.append_assoc]
  rfl

/-- When every supplied key has a declared column, the `where(attrs)` loop
pushes exactly the mapped equality condition for each key, in order. -/
theorem filterMap_eq_conds (t : Table) (attrs : Row)
    (h : ∀ kv ∈ attrs, (t.columns.lookup kv.1).isSome = true) :
    (attrs.filterMap fun kv => (t.columns.lookup kv.1).map fun c => eq c kv.2) =
      attrs.map fun kv => eq ((t.columns.lookup kv.1).getD (text "")) kv.2 := by
  revert h
  induction attrs with
  | nil => intro h; simp
  | cons kv rest ih =>
    intro h
    have h1 := h kv (by simp)
    have hrest : ∀ kv2 ∈ rest, (t.columns.lookup kv2.1).isSome = true :=
      fun kv2 hm => h kv2 (List.mem_cons_of_mem _ hm)
    cases hc : t.columns.lookup kv.1 with
    | none => rw [hc] at h1; simp at h1
    | some c => simp [hc, ih hrest]

/-- Folding a list of `eq` conditions renders the expected consecutive
`"column" = $n` fragments, collects the attribute values in order, and
advances the index by the number of keys. -/
theorem condListToSQL_eqs (t : Table) (attrs : Row) (k : Nat) :
    condListToSQL (attrs.map fun kv => eq ((t.columns.lookup kv.1).getD (text "")) kv.2) k =
      ⟨eqFragments t attrs k, attrs.map (·.2), k + attrs.length⟩ := by
  induction attrs generalizing k with
  | nil => simp [condListToSQL, eqFragments]
  | cons kv rest ih =>
    simp only [List.map_cons, condListToSQL, condToSQL_eq_sql, ih (k + 1), eqFragments,
      ListCompileResult.mk.injEq, List.singleton_append, List.length_cons, true_and]
    omega

/-- C6: for an attrs object all of whose keys are declared columns,
`where(attrs)` (the chain underlying `findBy`) builds exactly one equality
condition per supplied key; the compiled statement carries one `"column" = $n`
predicate per key, numbered consecutively, and one parameter per key in key
order; and `findBy(attrs)` returns the first row of the executed `LIMIT 1`
query (hydrated as a persisted instance), or `none` when no row matches. -/
theorem claim_C6 (gw : Gateway) (t : Table) (attrs : Row)
    (hkeys : ∀ kv ∈ attrs, (t.columns.lookup kv.1).isSome = true) :
    ((QueryChain.new t).whereAttrs attrs)._conditions =
        (attrs.map fun kv => eq ((t.columns.lookup kv.1).getD (text "")) kv.2) ∧
      ((QueryChain.new t).whereAttrs attrs)._conditions.length = attrs.length ∧
      (((QueryChain.new t).whereAttrs attrs).toSQL).2 = attrs.map (·.2) ∧
      (((QueryChain.new t).whereAttrs attrs).toSQL).1 =
        String.intercalate " " (["SELECT * FROM \"" ++ t.tableName ++ "\""] ++
          (match eqFragments t attrs 1 with
           | [] => []
           | [f] => ["WHERE " ++ f]
           | fs => ["WHERE " ++ ("(" ++ String.intercalate " AND " fs ++ ")")])) ∧
      findBy gw t attrs =
        ((gw.query ((((QueryChain.new t).whereAttrs attrs).limit 1).toSQL).1
            ((((QueryChain.new t).whereAttrs attrs).limit 1).toSQL).2).head?).map
          (fun row => createInstance row true) := by
  have hconds : ((QueryChain.new t).whereAttrs attrs)._conditions =
      attrs.map fun kv => eq ((t.columns.lookup kv.1).getD (text "")) kv.2 := by
    simp only [QueryChain.whereAttrs, QueryChain.new, List.nil_append]
    exact filterMap_eq_conds t attrs hkeys
  refine ⟨hconds, by rw [hconds]; simp, ?_, ?_, ?_⟩
  · -- params: one value per key, in key order
    simp only [QueryChain.toSQL, hconds]
    cases attrs with
    | nil => simp
    | cons kv rest =>
      cases rest with
      | nil => simp [condToSQL_eq_sql]
      | cons kv2 rest2 =>
        simp only [List.map_cons, condToSQL]
        rw [show (eq ((t.columns.lookup kv.1).getD (text "")) kv.2 ::
              eq ((t.columns.lookup kv2.1).getD (text "")) kv2.2 ::
              List.map (fun kv => eq ((t.columns.lookup kv.1).getD (text "")) kv.2) rest2) =
            ((kv :: kv2 :: rest2).map fun kv =>
              eq ((t.columns.lookup kv.1).getD (text "")) kv.2) from by simp,
          condListToSQL_eqs]
        simp
  · -- sql: the WHERE clause carries the consecutive equality fragments
    simp only [QueryChain.toSQL, hconds]
    cases attrs with
    | nil => rfl
    | cons kv rest =>
      cases rest with
      | nil =>
        simp only [List.map_cons, List.map_nil, condToSQL_eq_sql, eqFragments]
        rfl
      | cons kv2 rest2 =>
        simp only [List.map_cons, condToSQL]
        rw [show (eq ((t.columns.lookup kv.1).getD (text "")) kv.2 ::
              eq ((t.columns.lookup kv2.1).getD (text "")) kv2.2 ::
              List.map (fun kv => eq ((t.columns.lookup kv.1).getD (text "")) kv.2) rest2) =
            ((kv :: kv2 :: rest2).map fun kv =>
              eq ((t.columns.lookup kv.1).getD (text "")) kv.2) from by simp,
          condListToSQL_eqs]
        simp only [eqFragments]
        rfl
  · -- findBy: first row of the LIMIT 1 query, or none
    simp only [findBy, QueryChain.first, QueryChain.all]
    cases ((gw.query ((((QueryChain.new t).whereAttrs attrs).limit 1).toSQL).1
        ((((QueryChain.new t).whereAttrs attrs).limit 1).toSQL).2)).head? <;> rfl

/-- Witness for C6: `findBy` on `posts` with one supplied key, through a
gateway that returns no rows. -/
theorem claim_C6_witness :
    ((QueryChain.new posts).whereAttrs [("published", .bool true)])._conditions =
        ([(("published" : String), SQLValue.bool true)].map fun kv =>
          eq ((posts.columns.lookup kv.1).getD (text "")) kv.2) ∧
      ((QueryChain.new posts).whereAttrs [("published", .bool true)])._conditions.length =
        [(("published" : String), SQLValue.bool true)].length ∧
      (((QueryChain.new posts).whereAttrs [("published", .bool true)]).toSQL).2 =
        [(("published" : String), SQLValue.bool true)].map (·.2) ∧
      (((QueryChain.new posts).whereAttrs [("published", .bool true)]).toSQL).1 =
        String.intercalate " " (["SELECT * FROM \"" ++ posts.tableName ++ "\""] ++
          (match eqFragments posts [("published", .bool true)] 1 with
           | [] => []
           | [f] => ["WHERE " ++ f]
           | fs => ["WHERE " ++ ("(" ++ String.intercalate " AND " fs ++ ")")])) ∧
      findBy emptyGateway posts [("published", .bool true)] =
        ((emptyGateway.query
            ((((QueryChain.new posts).whereAttrs [("published", .bool true)]).limit 1).toSQL).1
            ((((QueryChain.new posts).whereAttrs [("published", .bool true)]).limit 1).toSQL).2).head?).map
          (fun row => createInstance row true) :=
  claim_C6 emptyGateway posts [("published", .bool true)] (by decide)

/-- Witness for C9: reloading a `posts` instance through a gateway that
returns no rows. -/
theorem claim_C9_witness :
    instanceReload emptyGateway posts ⟨[("id", .str "x")], true⟩ =
      (.error "Record not found", ⟨[("id", .str "x")], true⟩,
       [.query "SELECT * FROM \"posts\" WHERE \"id\" = $1" [.str "x"]]) :=
  claim_C9 emptyGateway posts ⟨[("id", .str "x")], true⟩ "id" postsIdCol
    "SELECT * FROM \"posts\" WHERE \"id\" = $1" [.str "x"] rfl rfl rfl

end Tana
